import Mathlib

/-!
Verification of the load-testing client in `src/main.py`.

The program drives a TCP message server: a burst mode (`run_load_test`)
starts `NUM_CLIENTS` workers each sending `MESSAGES_PER_CLIENT` messages,
and a sustained mode (`run_sustained_load_test`) starts workers that send
until a deadline.  All workers update four global counters through
`update_stats`, which serializes every update under one lock
(`stats_lock`).

Embedding choices:
* The four global counters are a `Counters` record; one `update_stats`
  call is a `Delta` record of the four keyword arguments.  Because the
  lock serializes updates, a run's effect on the counters is a fold of
  its update sequence; each counter is a sum, so the final value is
  invariant under the interleaving order, and we fix the worker-order
  concatenation as the serialization.
* The network is an oracle environment per worker: whether `connect`
  succeeds, and for each loop iteration what `sendall` and the
  acknowledgment `recv` did (`IterOutcome`).  The worker functions
  mirror the control flow of `client_worker` and
  `sustained_client_worker` over these oracles; a worker's run produces
  the list of tuples it put on `result_queue` and the list of
  `update_stats` calls it made, in program order.
* `print_progress` is modelled as its sequence of atomic events: the
  `with stats_lock:` block acquires the lock, the counter reads and the
  `print` call happen inside the block, and the lock is released when
  the block exits.
-/

/-- The four module-level statistics counters of `main.py`
(`total_sent`, `total_received`, `failed_connections`, `failed_sends`),
all starting at 0. -/
structure Counters where
  total_sent : Nat
  total_received : Nat
  failed_connections : Nat
  failed_sends : Nat
deriving Repr, DecidableEq

/-- Initial counter state at the start of a run. -/
def Counters.init : Counters := ⟨0, 0, 0, 0⟩

/-- The keyword arguments of one `update_stats(sent=, received=,
failed_conn=, failed_send=)` call. -/
structure Delta where
  sent : Nat
  received : Nat
  failed_conn : Nat
  failed_send : Nat
deriving Repr, DecidableEq

/-- `update_stats` (main.py lines 44-51): under `stats_lock`, add each
delta to the corresponding global counter. -/
def update_stats (c : Counters) (d : Delta) : Counters :=
  { total_sent := c.total_sent + d.sent
    total_received := c.total_received + d.received
    failed_connections := c.failed_connections + d.failed_conn
    failed_sends := c.failed_sends + d.failed_send }

/-- Apply a serialized sequence of `update_stats` calls, first to last. -/
def applyUpdates (c : Counters) (ds : List Delta) : Counters :=
  ds.foldl update_stats c

theorem applyUpdates_eq (c : Counters) (ds : List Delta) :
    applyUpdates c ds =
      { total_sent := c.total_sent + (ds.map Delta.sent).sum
        total_received := c.total_received + (ds.map Delta.received).sum
        failed_connections := c.failed_connections + (ds.map Delta.failed_conn).sum
        failed_sends := c.failed_sends + (ds.map Delta.failed_send).sum } := by
  induction ds generalizing c with
  | nil => simp [applyUpdates]
  | cons d ds ih =>
      simp only [applyUpdates, List.foldl_cons, List.map_cons, List.sum_cons]
      rw [show List.foldl update_stats (update_stats c d) ds
            = applyUpdates (update_stats c d) ds from rfl, ih]
      simp [update_stats, Nat.add_assoc]

/-- C1: For every sequence of increment operations applied to the shared
counters (each adding non-negative deltas to sent, received,
failed_connections, failed_sends, serialized by the single lock), the
final snapshot of each counter equals the exact sum of all individual
deltas applied to that counter, and every observable intermediate
snapshot is the full effect of a prefix of the sequence (no partial
update is observable). -/
theorem counters_sum_exact (ds pre post : List Delta) :
    (applyUpdates Counters.init ds).total_sent = (ds.map Delta.sent).sum ∧
    (applyUpdates Counters.init ds).total_received = (ds.map Delta.received).sum ∧
    (applyUpdates Counters.init ds).failed_connections = (ds.map Delta.failed_conn).sum ∧
    (applyUpdates Counters.init ds).failed_sends = (ds.map Delta.failed_send).sum ∧
    applyUpdates Counters.init (pre ++ post) =
      applyUpdates (applyUpdates Counters.init pre) post := by
  refine ⟨?_, ?_, ?_, ?_, ?_⟩
  · rw [applyUpdates_eq]; simp [Counters.init]
  · rw [applyUpdates_eq]; simp [Counters.init]
  · rw [applyUpdates_eq]; simp [Counters.init]
  · rw [applyUpdates_eq]; simp [Counters.init]
  · simp [applyUpdates, List.foldl_append]

/-! ## Burst-mode worker (`client_worker`, main.py lines 64-117) -/

/-- Outcome of the acknowledgment `recv` attempted after a successful
`sendall` (main.py lines 96-103): non-empty bytes, empty bytes (the
`if response:` guard fails), a `socket.timeout` (silently ignored), or
any other exception (it escapes the inner `except socket.timeout` and
is caught by the per-message handler at line 108). -/
inductive AckOutcome
  | bytes
  | empty
  | timeout
  | error
deriving Repr, DecidableEq

/-- Outcome of one iteration of the burst send loop (main.py lines
86-110): either `sendall` raises (`sendFail`), or it succeeds and the
acknowledgment read has the given outcome. -/
inductive IterOutcome
  | sendFail
  | sendOk (ack : AckOutcome)
deriving Repr, DecidableEq

/-- Network oracle for one burst worker: whether `sock.connect`
succeeds, and the outcome of each loop iteration `i`. -/
structure BurstEnv where
  connectOk : Bool
  iter : Nat → IterOutcome

/-- Effect of one burst loop iteration on the worker's local
accumulators `(sent, received, failed_send)`, exactly as the bodies of
the `try`/`except` at main.py lines 90-110 execute:
* `sendall` raises → `failed_send += 1`;
* `sendall` succeeds → `sent += 1`, then non-empty ack → `received += 1`,
  empty ack or ack timeout → nothing more, any other ack exception →
  the already-incremented `sent` stays and `failed_send += 1`. -/
def burstStep : Nat × Nat × Nat → IterOutcome → Nat × Nat × Nat
  | (s, r, f), .sendFail => (s, r, f + 1)
  | (s, r, f), .sendOk .bytes => (s + 1, r + 1, f)
  | (s, r, f), .sendOk .empty => (s + 1, r, f)
  | (s, r, f), .sendOk .timeout => (s + 1, r, f)
  | (s, r, f), .sendOk .error => (s + 1, r, f + 1)

/-- The `update_stats` calls one burst loop iteration makes, in program
order (the `update_stats(sent=1)` at line 93 precedes the
`update_stats(received=1)` at line 101 or the
`update_stats(failed_send=1)` at line 110). -/
def iterUpdates : IterOutcome → List Delta
  | .sendFail => [⟨0, 0, 0, 1⟩]
  | .sendOk .bytes => [⟨1, 0, 0, 0⟩, ⟨0, 1, 0, 0⟩]
  | .sendOk .empty => [⟨1, 0, 0, 0⟩]
  | .sendOk .timeout => [⟨1, 0, 0, 0⟩]
  | .sendOk .error => [⟨1, 0, 0, 0⟩, ⟨0, 0, 0, 1⟩]

/-- The tuple a worker puts on `result_queue`:
`(client_id, sent, received, failed_connection, failed_send)`. -/
structure WorkerResult where
  client_id : Nat
  sent_count : Nat
  received_count : Nat
  failed_connection : Nat
  failed_send_count : Nat
deriving Repr, DecidableEq

/-- Everything externally observable about one worker's execution: the
tuples it put on `result_queue` and the `update_stats` calls it made,
both in program order. -/
structure WorkerRun where
  results : List WorkerResult
  updates : List Delta
deriving Repr, DecidableEq

/-- The outcomes the burst loop `for i in range(messages_to_send)`
encounters, in order. -/
def burstIters (messages_to_send : Nat) (env : BurstEnv) : List IterOutcome :=
  (List.range messages_to_send).map env.iter

/-- `client_worker` (main.py lines 64-117).  On connect failure it
records one failed connection and puts `(client_id, 0, 0, 1, 0)`; on
connect success it runs the loop over all `messages_to_send`
iterations, closes the socket, and puts
`(client_id, sent, received, 0, failed_send)`.  The outer
`except Exception` (line 114) only logs and does not change the
accumulators, and the final `result_queue.put` (line 117) runs
unconditionally after it, so each path publishes exactly once. -/
def client_worker (client_id messages_to_send : Nat) (env : BurstEnv) : WorkerRun :=
  if env.connectOk then
    let outs := burstIters messages_to_send env
    let acc := outs.foldl burstStep (0, 0, 0)
    { results := [⟨client_id, acc.1, acc.2.1, 0, acc.2.2⟩]
      updates := (outs.map iterUpdates).flatten }
  else
    { results := [⟨client_id, 0, 0, 1, 0⟩]
      updates := [⟨0, 0, 1, 0⟩] }

/-! ## Sustained-mode worker (`sustained_client_worker`, lines 245-273) -/

/-- Network oracle for one sustained worker: whether `sock.connect`
succeeds, how many times the `while time.time() < end_time` guard is
true (`ticks`), and whether the `sendall` of iteration `i` succeeds. -/
structure SustainedEnv where
  connectOk : Bool
  ticks : Nat
  sendOk : Nat → Bool

/-- The sustained send loop (main.py lines 255-268): while the deadline
has not passed, `sendall`; on success `update_stats(sent=1)` and
continue; on any exception `update_stats(failed_send=1)` and `break`.
Returns the `update_stats` calls in program order. -/
def sustainedLoop : Nat → (Nat → Bool) → Nat → List Delta
  | 0, _, _ => []
  | n + 1, ok, i =>
      if ok i then ⟨1, 0, 0, 0⟩ :: sustainedLoop n ok (i + 1)
      else [⟨0, 0, 0, 1⟩]

/-- `sustained_client_worker` (main.py lines 245-273).  On connect
failure it records one failed connection; otherwise it runs the
deadline loop and closes the socket.  It never calls
`result_queue.put` — the `result_queue` parameter is unused in the
source — so its result list is empty on every path. -/
def sustained_client_worker (client_id : Nat) (env : SustainedEnv) : WorkerRun :=
  if env.connectOk then
    { results := [], updates := sustainedLoop env.ticks env.sendOk 0 }
  else
    { results := [], updates := [⟨0, 0, 1, 0⟩] }

/-! ## Run controllers (`run_load_test` lines 119-186,
`run_sustained_load_test` lines 194-243) -/

/-- `MESSAGES_PER_CLIENT = TOTAL_MESSAGES // NUM_CLIENTS`
(main.py line 20; recomputed the same way at line 293). -/
def MESSAGES_PER_CLIENT (total_messages num_clients : Nat) : Nat :=
  total_messages / num_clients

/-- Environment of a burst run: whether the pre-flight
`test_sock.connect` succeeds, and each worker's network oracle. -/
structure RunEnv where
  probeOk : Bool
  workerEnv : Nat → BurstEnv

/-- Observable outcome of one run: whether a pre-flight connectivity
probe was executed, how many workers were started, the final global
counters, and the collected `result_queue` contents. -/
structure RunOutcome where
  probed : Bool
  launched : Nat
  counters : Counters
  results : List WorkerResult
deriving Repr, DecidableEq

/-- `run_load_test` (main.py lines 119-186): first the connectivity
probe (lines 132-143) — on failure the function returns before any
thread is created; on success it starts `num_clients` workers, each
given `MESSAGES_PER_CLIENT` messages, joins them all, and reads the
final counters.  The lock serializes the workers' `update_stats` calls
in some interleaving; each final counter is the sum of all deltas
(`applyUpdates_eq`), which is invariant under the interleaving order,
so the worker-order concatenation is used as the serialization.
`burstRuns` is the list of the `num_clients` workers' executions. -/
def burstRuns (total_messages num_clients : Nat) (env : RunEnv) : List WorkerRun :=
  (List.range num_clients).map
    (fun i => client_worker i (MESSAGES_PER_CLIENT total_messages num_clients)
      (env.workerEnv i))

def run_load_test (total_messages num_clients : Nat) (env : RunEnv) : RunOutcome :=
  if env.probeOk then
    let runs := burstRuns total_messages num_clients env
    { probed := true
      launched := num_clients
      counters := applyUpdates Counters.init ((runs.map WorkerRun.updates).flatten)
      results := (runs.map WorkerRun.results).flatten }
  else
    { probed := true, launched := 0, counters := Counters.init, results := [] }

/-- `run_sustained_load_test` (main.py lines 194-243): it starts
`num_clients` sustained workers immediately — the source has no
connectivity probe in this function — joins them, and reads the final
counters.  The workers never put on `result_queue`, so the collected
results are empty. -/
def run_sustained_load_test (num_clients : Nat) (env : Nat → SustainedEnv) : RunOutcome :=
  let runs := (List.range num_clients).map (fun i => sustained_client_worker i (env i))
  { probed := false
    launched := num_clients
    counters := applyUpdates Counters.init ((runs.map WorkerRun.updates).flatten)
    results := (runs.map WorkerRun.results).flatten }

/-! ## Progress monitor (`print_progress`, main.py lines 53-62) -/

/-- Atomic events of one `print_progress` call. -/
inductive MonitorEvent
  | acquireLock
  | readCounters
  | render
  | releaseLock
deriving Repr, DecidableEq

/-- Event trace of `print_progress` (main.py lines 53-62): the
`with stats_lock:` block acquires the lock; the reads of the global
counters and the `print(...)` call are both inside the block; the lock
is released when the block exits. -/
def print_progress_events : List MonitorEvent :=
  [.acquireLock, .readCounters, .render, .releaseLock]

/-- Whether some `render` event in the trace happens while the lock is
held (the accumulator is the lock state entering the trace). -/
def rendersHoldingLock : List MonitorEvent → Bool → Bool
  | [], _ => false
  | .acquireLock :: es, _ => rendersHoldingLock es true
  | .releaseLock :: es, _ => rendersHoldingLock es false
  | .readCounters :: es, held => rendersHoldingLock es held
  | .render :: es, held => held || rendersHoldingLock es held

/-! ## Helper lemmas -/

/-- Contribution of one burst iteration to the worker's `sent`. -/
def sentDelta : IterOutcome → Nat
  | .sendFail => 0
  | .sendOk _ => 1

/-- Contribution of one burst iteration to the worker's `received`. -/
def recvDelta : IterOutcome → Nat
  | .sendFail => 0
  | .sendOk .bytes => 1
  | .sendOk .empty => 0
  | .sendOk .timeout => 0
  | .sendOk .error => 0

/-- Contribution of one burst iteration to the worker's `failed_send`. -/
def failDelta : IterOutcome → Nat
  | .sendFail => 1
  | .sendOk .bytes => 0
  | .sendOk .empty => 0
  | .sendOk .timeout => 0
  | .sendOk .error => 1

/-- Whether the `sendall` of the iteration succeeded. -/
def writeOk : IterOutcome → Bool
  | .sendFail => false
  | .sendOk _ => true

theorem burst_foldl_eq (outs : List IterOutcome) (s r f : Nat) :
    outs.foldl burstStep (s, r, f) =
      (s + (outs.map sentDelta).sum, r + (outs.map recvDelta).sum,
       f + (outs.map failDelta).sum) := by
  induction outs generalizing s r f with
  | nil => simp
  | cons o os ih =>
      cases o with
      | sendFail =>
          simp [burstStep, ih, sentDelta, recvDelta, failDelta, Nat.add_assoc,
            Nat.add_comm 1]
      | sendOk a =>
          cases a <;>
            simp [burstStep, ih, sentDelta, recvDelta, failDelta, Nat.add_assoc,
              Nat.add_comm 1]

theorem iterUpdates_sums (o : IterOutcome) :
    ((iterUpdates o).map Delta.sent).sum = sentDelta o ∧
    ((iterUpdates o).map Delta.received).sum = recvDelta o ∧
    ((iterUpdates o).map Delta.failed_conn).sum = 0 ∧
    ((iterUpdates o).map Delta.failed_send).sum = failDelta o := by
  cases o with
  | sendFail => simp [iterUpdates, sentDelta, recvDelta, failDelta]
  | sendOk a => cases a <;> simp [iterUpdates, sentDelta, recvDelta, failDelta]

theorem sum_map_flatten {α : Type} (f : α → Nat) (ll : List (List α)) :
    (ll.flatten.map f).sum = (ll.map (fun l => (l.map f).sum)).sum := by
  induction ll with
  | nil => simp
  | cons l ls ih =>
      simp only [List.flatten_cons, List.map_append, List.sum_append,
        List.map_cons, List.sum_cons, ih]

theorem sum_const_range (n m : Nat) : ((List.range n).map (fun _ => m)).sum = n * m := by
  induction n with
  | zero => simp
  | succ k ih => rw [List.range_succ]; simp [ih, Nat.succ_mul]

theorem sum_over_iters (g : Delta → Nat) (h : IterOutcome → Nat)
    (hg : ∀ o, ((iterUpdates o).map g).sum = h o) (outs : List IterOutcome) :
    (((outs.map iterUpdates).flatten).map g).sum = (outs.map h).sum := by
  induction outs with
  | nil => simp
  | cons o os ih =>
      simp only [List.map_cons, List.flatten_cons, List.map_append,
        List.sum_append, List.sum_cons, ih, hg]

theorem client_worker_sums (cid M : Nat) (env : BurstEnv) :
    ((client_worker cid M env).updates.map Delta.sent).sum
      = ((client_worker cid M env).results.map WorkerResult.sent_count).sum ∧
    ((client_worker cid M env).updates.map Delta.received).sum
      = ((client_worker cid M env).results.map WorkerResult.received_count).sum ∧
    ((client_worker cid M env).updates.map Delta.failed_conn).sum
      = ((client_worker cid M env).results.map WorkerResult.failed_connection).sum ∧
    ((client_worker cid M env).updates.map Delta.failed_send).sum
      = ((client_worker cid M env).results.map WorkerResult.failed_send_count).sum := by
  cases hc : env.connectOk with
  | false => simp [client_worker, hc]
  | true =>
      simp only [client_worker, hc, if_true]
      rw [burst_foldl_eq]
      refine ⟨?_, ?_, ?_, ?_⟩
      · rw [sum_over_iters Delta.sent sentDelta (fun o => (iterUpdates_sums o).1)]
        simp
      · rw [sum_over_iters Delta.received recvDelta (fun o => (iterUpdates_sums o).2.1)]
        simp
      · rw [sum_over_iters Delta.failed_conn (fun _ => 0)
          (fun o => (iterUpdates_sums o).2.2.1)]
        simp
      · rw [sum_over_iters Delta.failed_send failDelta
          (fun o => (iterUpdates_sums o).2.2.2)]
        simp

theorem sentDelta_of_writeOk (o : IterOutcome) (h : writeOk o = true) :
    sentDelta o = 1 := by
  cases o with
  | sendFail => simp [writeOk] at h
  | sendOk a => rfl

theorem recvDelta_le_sentDelta (o : IterOutcome) : recvDelta o ≤ sentDelta o := by
  cases o with
  | sendFail => exact Nat.le_refl 0
  | sendOk a => cases a <;> simp [recvDelta, sentDelta]

/-! ## Concrete environments used in closed-form theorems -/

/-- A server that accepts the connection and acknowledges every
message with a non-empty reply. -/
def envAllBytes : BurstEnv := { connectOk := true, iter := fun _ => .sendOk .bytes }

/-- A server that accepts every write but whose acknowledgment read
always raises a non-timeout exception. -/
def envAckError : BurstEnv := { connectOk := true, iter := fun _ => .sendOk .error }

/-- A sustained-mode environment where the connection and every send
succeed and the deadline allows 5 iterations. -/
def envSustainedOk : SustainedEnv :=
  { connectOk := true, ticks := 5, sendOk := fun _ => true }

/-- A sustained-mode fleet against an unreachable server: every
worker's connect fails. -/
def serverDownSustained : Nat → SustainedEnv :=
  fun _ => { connectOk := false, ticks := 0, sendOk := fun _ => true }

/-- A burst-run environment whose pre-flight connectivity probe fails. -/
def envProbeFail : RunEnv :=
  { probeOk := false, workerEnv := fun _ => envAllBytes }

/-! ## Claim theorems -/

/-- C2 counterexample: a sustained-mode worker whose connect and every
send succeed still publishes nothing to the result queue
(`sustained_client_worker` never calls `result_queue.put`), so "exactly
one WorkerResult per worker started, in either mode" is false. -/
theorem sustained_worker_publishes_nothing :
    ¬ ((sustained_client_worker 0 envSustainedOk).results.length = 1) := by
  decide

/-- C2 (amended): every burst-mode worker publishes exactly one result
tuple on every path (connect failure, send failures, ack errors, or
normal completion), while a sustained-mode worker publishes zero
results on every path — its only terminal signal is thread
termination. -/
theorem worker_publishes_exactly_once (cid M : Nat) (env : BurstEnv)
    (senv : SustainedEnv) :
    (client_worker cid M env).results.length = 1 ∧
    (sustained_client_worker cid senv).results.length = 0 := by
  constructor
  · cases hc : env.connectOk <;> simp [client_worker, hc]
  · cases hc : senv.connectOk <;> simp [sustained_client_worker, hc]

/-- C5: a `sendall` failure adds exactly 1 to `failed_sends` (locally
and via one `update_stats(failed_send=1)`), and in burst mode the loop
continues with the next iteration, while in sustained mode the loop
breaks: whatever time remains, the loop emits the single failed-send
update and sends no further messages. -/
theorem send_failure_burst_continues_sustained_breaks :
    (∀ s r f, burstStep (s, r, f) .sendFail = (s, r, f + 1)) ∧
    iterUpdates .sendFail = [⟨0, 0, 0, 1⟩] ∧
    (∀ acc rest, (IterOutcome.sendFail :: rest).foldl burstStep acc
        = rest.foldl burstStep (burstStep acc .sendFail)) ∧
    (∀ n ok i, ok i = false → sustainedLoop (n + 1) ok i = [⟨0, 0, 0, 1⟩]) := by
  refine ⟨fun s r f => rfl, rfl, fun acc rest => rfl, fun n ok i h => ?_⟩
  simp [sustainedLoop, h]

theorem send_failure_witness :
    (fun _ : Nat => false) 0 = false ∧
    sustainedLoop 4 (fun _ => false) 0 = [⟨0, 0, 0, 1⟩] :=
  ⟨rfl, send_failure_burst_continues_sustained_breaks.2.2.2 3 (fun _ => false) 0 rfl⟩

/-- C6: after a successful write the burst worker attempts one
acknowledgment read (each `sendOk` iteration carries exactly one
`AckOutcome`): a non-empty reply adds 1 to `received`; a read timeout
changes no local accumulator and produces no failure update (only the
`sent` update of that iteration); and in both cases the fold proceeds
to the next iteration. -/
theorem ack_read_behaviour :
    (∀ s r f, burstStep (s, r, f) (.sendOk .bytes) = (s + 1, r + 1, f)) ∧
    (∀ s r f, burstStep (s, r, f) (.sendOk .timeout) = (s + 1, r, f)) ∧
    iterUpdates (.sendOk .bytes) = [⟨1, 0, 0, 0⟩, ⟨0, 1, 0, 0⟩] ∧
    iterUpdates (.sendOk .timeout) = [⟨1, 0, 0, 0⟩] ∧
    (∀ acc a rest, (IterOutcome.sendOk a :: rest).foldl burstStep acc
        = rest.foldl burstStep (burstStep acc (.sendOk a))) :=
  ⟨fun s r f => rfl, fun s r f => rfl, rfl, rfl, fun acc a rest => rfl⟩

/-- C7 counterexample: `print_progress` renders while the lock is held
— the `print` call is inside the `with stats_lock:` block — so "never
holds the lock while rendering" is false on the code. -/
theorem progress_render_inside_lock :
    ¬ (rendersHoldingLock print_progress_events false = false) := by
  decide

/-- C7 (amended): the progress monitor reads the counters and renders
the progress line inside the critical section: the lock is acquired
first, the render happens while the lock is held, and the lock is
released only after rendering, so a render can block workers' counter
updates. -/
theorem progress_renders_under_lock :
    rendersHoldingLock print_progress_events false = true ∧
    print_progress_events =
      [.acquireLock, .readCounters, .render, .releaseLock] := by
  exact ⟨by decide, rfl⟩

/-- C10: a non-timeout exception during the acknowledgment read is
caught by the per-message handler, so that iteration adds 1 to `sent`
and 1 to `failed_sends` (both locally and as two `update_stats` calls);
consequently with M = 1 message the published result has
`sent_count + failed_send_count = 2 > 1 = M`. -/
theorem ack_error_double_counts :
    (∀ s r f, burstStep (s, r, f) (.sendOk .error) = (s + 1, r, f + 1)) ∧
    iterUpdates (.sendOk .error) = [⟨1, 0, 0, 0⟩, ⟨0, 0, 0, 1⟩] ∧
    (client_worker 7 1 envAckError).results = [⟨7, 1, 0, 0, 1⟩] ∧
    1 + 1 > 1 := by
  refine ⟨fun s r f => rfl, rfl, by decide, by decide⟩

theorem applyUpdates_total_sent (c : Counters) (ds : List Delta) :
    (applyUpdates c ds).total_sent = c.total_sent + (ds.map Delta.sent).sum := by
  rw [applyUpdates_eq]

theorem applyUpdates_total_received (c : Counters) (ds : List Delta) :
    (applyUpdates c ds).total_received = c.total_received + (ds.map Delta.received).sum := by
  rw [applyUpdates_eq]

theorem applyUpdates_failed_connections (c : Counters) (ds : List Delta) :
    (applyUpdates c ds).failed_connections
      = c.failed_connections + (ds.map Delta.failed_conn).sum := by
  rw [applyUpdates_eq]

theorem applyUpdates_failed_sends (c : Counters) (ds : List Delta) :
    (applyUpdates c ds).failed_sends = c.failed_sends + (ds.map Delta.failed_send).sum := by
  rw [applyUpdates_eq]

theorem run_counters_unfold (total num : Nat) (env : RunEnv) (h : env.probeOk = true) :
    (run_load_test total num env).counters
      = applyUpdates Counters.init
          (((burstRuns total num env).map WorkerRun.updates).flatten) ∧
    (run_load_test total num env).results
      = ((burstRuns total num env).map WorkerRun.results).flatten := by
  constructor <;> simp [run_load_test, h]

theorem burstRuns_flatten_sum {α : Type} (total num : Nat) (env : RunEnv)
    (proj : WorkerRun → List α) (g : α → Nat) :
    ((((burstRuns total num env).map proj).flatten).map g).sum
      = ((List.range num).map (fun i =>
          ((proj (client_worker i (MESSAGES_PER_CLIENT total num)
            (env.workerEnv i))).map g).sum)).sum := by
  rw [sum_map_flatten]
  simp only [burstRuns, List.map_map]
  rfl

theorem sum_sentDelta_le (outs : List IterOutcome) :
    (outs.map sentDelta).sum ≤ outs.length := by
  induction outs with
  | nil => exact Nat.le_refl 0
  | cons o os ih =>
      cases o with
      | sendFail => simp [sentDelta]; omega
      | sendOk a => simp [sentDelta]; omega

theorem sum_map_one {α : Type} (l : List α) :
    (l.map (fun _ => (1 : Nat))).sum = l.length := by
  induction l with
  | nil => rfl
  | cons a as ih => simp [ih]; omega

theorem client_worker_sent_le (cid M : Nat) (env : BurstEnv) :
    ((client_worker cid M env).updates.map Delta.sent).sum ≤ M := by
  cases hc : env.connectOk with
  | false => simp [client_worker, hc]
  | true =>
      simp only [client_worker, hc, if_true]
      rw [sum_over_iters Delta.sent sentDelta (fun o => (iterUpdates_sums o).1)]
      calc ((burstIters M env).map sentDelta).sum
          ≤ (burstIters M env).length := sum_sentDelta_le _
        _ = M := by simp [burstIters]

theorem client_worker_sent_eq (cid M : Nat) (env : BurstEnv)
    (hc : env.connectOk = true) (hw : ∀ j, writeOk (env.iter j) = true) :
    ((client_worker cid M env).updates.map Delta.sent).sum = M := by
  simp only [client_worker, hc, if_true]
  rw [sum_over_iters Delta.sent sentDelta (fun o => (iterUpdates_sums o).1)]
  have hmem : ∀ o ∈ burstIters M env, sentDelta o = (fun _ : IterOutcome => (1 : Nat)) o := by
    intro o ho
    obtain ⟨j, hj, rfl⟩ : ∃ a < M, env.iter a = o := by simpa [burstIters] using ho
    exact sentDelta_of_writeOk _ (hw j)
  rw [List.map_congr_left hmem, sum_map_one]
  simp [burstIters]

/-- C8: every result tuple a burst-mode worker publishes satisfies
`received_count ≤ sent_count`: the acknowledgment read happens only
after a successful write in the same iteration and adds at most 1 per
successful write, and the connect-failure tuple is `(·, 0, 0, 1, 0)`. -/
theorem burst_received_le_sent (cid M : Nat) (env : BurstEnv) (res : WorkerResult)
    (h : res ∈ (client_worker cid M env).results) :
    res.received_count ≤ res.sent_count := by
  cases hc : env.connectOk with
  | false =>
      simp only [client_worker, hc, Bool.false_eq_true, if_false,
        List.mem_singleton] at h
      subst h
      exact Nat.le_refl 0
  | true =>
      simp only [client_worker, hc, if_true, List.mem_singleton] at h
      subst h
      show (List.foldl burstStep (0, 0, 0) (burstIters M env)).2.1
        ≤ (List.foldl burstStep (0, 0, 0) (burstIters M env)).1
      rw [burst_foldl_eq]
      simpa using List.sum_le_sum (fun o _ => recvDelta_le_sentDelta o)

theorem burst_received_le_sent_witness :
    (⟨0, 2, 2, 0, 0⟩ : WorkerResult) ∈ (client_worker 0 2 envAllBytes).results ∧
    (⟨0, 2, 2, 0, 0⟩ : WorkerResult).received_count
      ≤ (⟨0, 2, 2, 0, 0⟩ : WorkerResult).sent_count :=
  ⟨by decide, burst_received_le_sent 0 2 envAllBytes ⟨0, 2, 2, 0, 0⟩ (by decide)⟩

/-- A burst-run environment where the probe, every connect, and every
write succeed and every message is acknowledged. -/
def envBurstAllOk : RunEnv := { probeOk := true, workerEnv := fun _ => envAllBytes }

/-- C3: in burst mode with `num` clients and
`M = total_messages // num` messages per client, the total sent counter
never exceeds `num * M`; each worker's loop runs exactly `M`
iterations, each adding at most 1 to `sent`; and when the probe, every
connect and every write succeed, total sent equals `num * M`. -/
theorem burst_sent_bound (total num : Nat) (env : RunEnv) :
    (run_load_test total num env).counters.total_sent
      ≤ num * MESSAGES_PER_CLIENT total num ∧
    (∀ i, (burstIters (MESSAGES_PER_CLIENT total num) (env.workerEnv i)).length
        = MESSAGES_PER_CLIENT total num) ∧
    (∀ acc o, (burstStep acc o).1 ≤ acc.1 + 1) ∧
    (env.probeOk = true →
      (∀ i, (env.workerEnv i).connectOk = true) →
      (∀ i j, writeOk ((env.workerEnv i).iter j) = true) →
      (run_load_test total num env).counters.total_sent
        = num * MESSAGES_PER_CLIENT total num) := by
  refine ⟨?_, fun i => by simp [burstIters], ?_, ?_⟩
  · cases hp : env.probeOk with
    | false => simp [run_load_test, hp, Counters.init]
    | true =>
        rw [(run_counters_unfold total num env hp).1, applyUpdates_total_sent,
          burstRuns_flatten_sum]
        simp only [Counters.init, Nat.zero_add]
        calc ((List.range num).map (fun i =>
                ((WorkerRun.updates (client_worker i (MESSAGES_PER_CLIENT total num)
                  (env.workerEnv i))).map Delta.sent).sum)).sum
            ≤ ((List.range num).map
                (fun _ => MESSAGES_PER_CLIENT total num)).sum :=
              List.sum_le_sum (fun i _ => client_worker_sent_le i _ (env.workerEnv i))
          _ = num * MESSAGES_PER_CLIENT total num := sum_const_range _ _
  · intro acc o
    obtain ⟨s, r, f⟩ := acc
    cases o with
    | sendFail => simp [burstStep]
    | sendOk a => cases a <;> simp [burstStep]
  · intro hp hc hw
    rw [(run_counters_unfold total num env hp).1, applyUpdates_total_sent,
      burstRuns_flatten_sum]
    simp only [Counters.init, Nat.zero_add]
    rw [List.map_congr_left (fun i _ =>
      client_worker_sent_eq i (MESSAGES_PER_CLIENT total num) (env.workerEnv i)
        (hc i) (hw i))]
    exact sum_const_range _ _

theorem burst_sent_bound_witness :
    envBurstAllOk.probeOk = true ∧
    (run_load_test 6 3 envBurstAllOk).counters.total_sent
      = 3 * MESSAGES_PER_CLIENT 6 3 :=
  ⟨rfl, (burst_sent_bound 6 3 envBurstAllOk).2.2.2 rfl (fun _ => rfl) (fun _ _ => rfl)⟩

/-- C4 counterexample: the sustained run executes no connectivity probe
and starts all 100 workers even against an unreachable server (every
worker's connect fails), so "every run probes first and launches zero
workers on probe failure" is false. -/
theorem sustained_run_has_no_probe :
    (run_sustained_load_test 100 serverDownSustained).probed = false ∧
    ¬ ((run_sustained_load_test 100 serverDownSustained).launched = 0) := by
  exact ⟨rfl, by decide⟩

/-- C4 (amended): only the burst run performs the pre-flight
connectivity probe; on probe failure it launches zero workers and its
reported sent counter stays 0.  The sustained run performs no probe and
always launches all `num` workers. -/
theorem probe_gates_burst_only (total num : Nat) (env : RunEnv)
    (senv : Nat → SustainedEnv) :
    (run_load_test total num env).probed = true ∧
    (env.probeOk = false →
      (run_load_test total num env).launched = 0 ∧
      (run_load_test total num env).counters.total_sent = 0) ∧
    (run_sustained_load_test num senv).probed = false ∧
    (run_sustained_load_test num senv).launched = num := by
  refine ⟨?_, ?_, rfl, rfl⟩
  · cases hp : env.probeOk <;> simp [run_load_test, hp]
  · intro hp
    simp [run_load_test, hp, Counters.init]

theorem probe_gates_burst_only_witness :
    envProbeFail.probeOk = false ∧
    (run_load_test 10000 100 envProbeFail).launched = 0 ∧
    (run_load_test 10000 100 envProbeFail).counters.total_sent = 0 :=
  ⟨rfl, (probe_gates_burst_only 10000 100 envProbeFail serverDownSustained).2.1 rfl⟩

/-- C9: after a burst run, each global counter equals the sum of the
corresponding field over all published worker results: every local
increment is paired with exactly one matching `update_stats` call, so
the serialized update total and the result total agree field by
field. -/
theorem burst_counters_match_results (total num : Nat) (env : RunEnv) :
    (run_load_test total num env).counters.total_sent
      = ((run_load_test total num env).results.map WorkerResult.sent_count).sum ∧
    (run_load_test total num env).counters.total_received
      = ((run_load_test total num env).results.map WorkerResult.received_count).sum ∧
    (run_load_test total num env).counters.failed_connections
      = ((run_load_test total num env).results.map WorkerResult.failed_connection).sum ∧
    (run_load_test total num env).counters.failed_sends
      = ((run_load_test total num env).results.map WorkerResult.failed_send_count).sum := by
  cases hp : env.probeOk with
  | false => simp [run_load_test, hp, Counters.init]
  | true =>
      obtain ⟨hcnt, hres⟩ := run_counters_unfold total num env hp
      rw [hcnt, hres]
      refine ⟨?_, ?_, ?_, ?_⟩
      · rw [applyUpdates_total_sent, burstRuns_flatten_sum, burstRuns_flatten_sum]
        simp only [Counters.init, Nat.zero_add]
        exact congrArg List.sum (List.map_congr_left (fun i _ =>
          (client_worker_sums i _ (env.workerEnv i)).1))
      · rw [applyUpdates_total_received, burstRuns_flatten_sum, burstRuns_flatten_sum]
        simp only [Counters.init, Nat.zero_add]
        exact congrArg List.sum (List.map_congr_left (fun i _ =>
          (client_worker_sums i _ (env.workerEnv i)).2.1))
      · rw [applyUpdates_failed_connections, burstRuns_flatten_sum, burstRuns_flatten_sum]
        simp only [Counters.init, Nat.zero_add]
        exact congrArg List.sum (List.map_congr_left (fun i _ =>
          (client_worker_sums i _ (env.workerEnv i)).2.2.1))
      · rw [applyUpdates_failed_sends, burstRuns_flatten_sum, burstRuns_flatten_sum]
        simp only [Counters.init, Nat.zero_add]
        exact congrArg List.sum (List.map_congr_left (fun i _ =>
          (client_worker_sums i _ (env.workerEnv i)).2.2.2))
